import Mathlib

/-!
Shallow embedding of the Conversation State & Regeneration Engine of the
repository (a React chat front-end for a remote Gemini model).

The embedding follows the source files:
  * `src/types.ts`            — data model (`Message`, `Attachment`, `ChatSession`)
  * `src/services/gemini.ts`  (src/unnamed/part_000) — model selection, system
    instruction composition and request assembly (`getModelName`,
    `sendMessageToGemini`)
  * `src/services/storage.ts` (local-storage half of src/services/supabase.ts)
    — `dbService.createSession`, `dbService.updateSession`, `dbService.getSessions`
  * `src/App.tsx`             — the engine transitions `handleSend`,
    `handleEditSave`, `startNewChat` and the persistence effect.

JavaScript strings are modelled as Lean `String` (code-unit subtleties of
UTF-16 are abstracted away); `undefined`-able fields are `Option`; timestamps
(`Date.now()`) and freshly generated identifiers (`generateId()`) are passed in
as explicit parameters, making every transition a pure function.
-/

namespace ArchitectAI

/-- JavaScript truthiness of `s.trim()` negated: `!s.trim()` is true exactly
when `s` is empty or consists only of whitespace. -/
def isBlank (s : String) : Bool :=
  s.data.all Char.isWhitespace

/-- `Array.prototype.findIndex` (with `-1` rendered as `none`). -/
def jsFindIndex (p : α → Bool) : List α → Option Nat
  | [] => none
  | a :: l => if p a then some 0 else (jsFindIndex p l).map (· + 1)

/-- `String.prototype.slice(0, n)`. -/
def jsSlice (s : String) (n : Nat) : String :=
  String.mk (s.data.take n)

/-- `src/types.ts`: `Attachment`. -/
structure Attachment where
  name : String
  mimeType : String
  data : String
deriving DecidableEq, Repr

/-- `src/types.ts`: the `role` field of `Message`. -/
inductive Role
  | user
  | model
deriving DecidableEq, Repr

/-- `src/types.ts`: `Message`.  `attachments?` and `isThinking?` are optional
fields in TypeScript, hence `Option` here. -/
structure Message where
  id : String
  role : Role
  content : String
  attachments : Option (List Attachment) := none
  isThinking : Option Bool := none
  timestamp : Nat
deriving DecidableEq, Repr

/-- `src/types.ts`: `ChatSession`. -/
structure ChatSession where
  id : String
  userId : String
  title : String
  messages : List Message
  lastUpdated : Nat
deriving DecidableEq, Repr

/-! ## `src/services/gemini.ts` (src/unnamed/part_000) -/

/-- `getModelName`: helper to determine the model based on config. -/
def getModelName (deepThink : Bool) : String :=
  if deepThink then "gemini-2.5-flash" else "gemini-3-pro-preview"

/-- `BASE_INSTRUCTION` from `src/services/gemini.ts`. -/
def BASE_INSTRUCTION : String :=
  "\nYou are \x27Roblox Architect\x27, a world-class Roblox Studio expert AI. \nYour goal is to assist developers in creating high-quality games on the Roblox platform.\n\nAttributes:\n1.  **Professional & Modern:** You write clean, optimized, and strictly typed Luau code. Use \x27task.wait\x27, \x27OverlapParams\x27, \x27TweenService\x27, etc.\n2.  **UI/UX Expert:** Suggest UDim2, AnchorPoints, and clean hierarchy. **Always include specific UDim2 values (e.g., `UDim2.new(0.5, 0, 0.5, 0)`) and AnchorPoint examples (e.g., `Vector2.new(0.5, 0.5)`) when suggesting UI layouts.**\n3.  **Secure:** Prioritize filtering text and securing RemoteEvents.\n4.  **Formatting:** Always wrap code in ```lua blocks.\n"

/-- `ANALYZE_INSTRUCTION` from `src/services/gemini.ts`. -/
def ANALYZE_INSTRUCTION : String :=
  "\n[ACTIVE MODE: CODE ANALYSIS]\nThe user wants a strict review.\n- **Identify Missing Types:** Point out variables/functions lacking types.\n- **Modularity:** Suggest splitting monoliths into ModuleScripts.\n- **Safety:** Flag insecure RemoteEvent usage.\n- **Style:** Enforce Roblox Lua Style Guide.\n"

/-- `OPTIMIZE_INSTRUCTION` from `src/services/gemini.ts`. -/
def OPTIMIZE_INSTRUCTION : String :=
  "\n[ACTIVE MODE: OPTIMIZATION]\nThe user requires HIGH PERFORMANCE code.\n- **Critical:** Avoid O(n^2) loops. Use dictionary lookups.\n- **Memory:** properly disconnect RBXScriptConnections (Janitor/Maid).\n- **Network:** Minimize RemoteEvent payloads.\n- **Threading:** Use Parallel Luau (Actors) for heavy tasks.\n- **Explanation:** You MUST explain specific optimization choices made.\n"

/-- The trailing joint-mode directive appended when at least one optional mode
block is active (the template-literal line of `sendMessageToGemini`). -/
def modeDirective (activeModes : List String) : String :=
  "\n\nUser has enabled the following modes: " ++ String.intercalate ", " activeModes
    ++ ". Please adhere to ALL instructions above."

/-- The sequential accumulation of `systemInstruction` and `activeModes` in
`sendMessageToGemini` (lines 58–73 of `src/services/gemini.ts`): start from the
base instruction, conditionally append the analysis block then the optimization
block, recording the names of active modes, and finally append the joint-mode
directive when at least one mode is active. -/
def systemInstructionBuild (analyzeMode optimizeMode : Bool) : String × List String :=
  let systemInstruction := BASE_INSTRUCTION
  let activeModes : List String := []
  let (systemInstruction, activeModes) :=
    if analyzeMode then
      (systemInstruction ++ ("\n\n" ++ ANALYZE_INSTRUCTION), activeModes ++ ["Analysis"])
    else (systemInstruction, activeModes)
  let (systemInstruction, activeModes) :=
    if optimizeMode then
      (systemInstruction ++ ("\n\n" ++ OPTIMIZE_INSTRUCTION), activeModes ++ ["Optimization"])
    else (systemInstruction, activeModes)
  if activeModes.length > 0 then
    (systemInstruction ++ modeDirective activeModes, activeModes)
  else (systemInstruction, activeModes)

/-- The composed system instruction for a given mode set. -/
def systemInstructionOf (analyzeMode optimizeMode : Bool) : String :=
  (systemInstructionBuild analyzeMode optimizeMode).1

/-- The `activeModes` list accumulated while composing the system instruction. -/
def activeModesOf (analyzeMode optimizeMode : Bool) : List String :=
  (systemInstructionBuild analyzeMode optimizeMode).2

/-- One `Part` of a Gemini API `Content` turn: plain text or inline binary
data (`inlineData`). -/
inductive GPart
  | text (s : String)
  | inlineData (mimeType : String) (data : String)
deriving DecidableEq, Repr

/-- One `Content` turn of the Gemini API request. -/
structure GContent where
  role : Role
  parts : List GPart
deriving DecidableEq, Repr

/-- The request value assembled by `sendMessageToGemini` and passed to
`ai.models.generateContent`: the selected model name, the composed config
(system instruction plus the optional `thinkingConfig.thinkingBudget`),
and the contents (re-expressed history followed by the new user turn). -/
structure GeminiRequest where
  model : String
  systemInstruction : String
  thinkingBudget : Option Nat
  contents : List GContent
deriving DecidableEq, Repr

/-- The part list for one history message: the text part followed by one
`inlineData` part per attachment (`validHistory` in `sendMessageToGemini`). -/
def messageParts (m : Message) : List GPart :=
  GPart.text m.content ::
    (m.attachments.getD []).map (fun att => GPart.inlineData att.mimeType att.data)

/-- The pure request-assembly core of `sendMessageToGemini`
(`src/services/gemini.ts` lines 55–111): model selection, system-instruction
composition, conditional `thinkingConfig`, history re-expression and the new
turn. -/
def composeRequest (history : List Message) (newMessage : String)
    (attachments : List Attachment)
    (deepThink analyzeMode optimizeMode : Bool) : GeminiRequest :=
  let modelName := getModelName deepThink
  let systemInstruction := systemInstructionOf analyzeMode optimizeMode
  let thinkingBudget : Option Nat := if deepThink then some 8192 else none
  let validHistory := history.map (fun msg => GContent.mk msg.role (messageParts msg))
  let currentParts : List GPart :=
    GPart.text newMessage ::
      attachments.map (fun att => GPart.inlineData att.mimeType att.data)
  { model := modelName
    systemInstruction := systemInstruction
    thinkingBudget := thinkingBudget
    contents := validHistory ++ [GContent.mk Role.user currentParts] }

/-- The failure modes of the completion call (§7 of the spec): the missing
`API_KEY` check at the top of `sendMessageToGemini`, and transport/remote
failures raised by the SDK call itself. -/
inductive CompletionError
  | missingCredential
  | transportError
  | remoteError
deriving DecidableEq, Repr

/-- `sendMessageToGemini` as a fallible call: throws `missingCredential` when
no `API_KEY` is configured, otherwise composes the request and runs it through
the (abstract) transport, which returns text or fails. -/
def sendMessageToGemini (apiKey : Option String) (history : List Message)
    (newMessage : String) (attachments : List Attachment)
    (deepThink analyzeMode optimizeMode : Bool)
    (transport : GeminiRequest → Except CompletionError String) :
    Except CompletionError String :=
  match apiKey with
  | none => Except.error CompletionError.missingCredential
  | some _ =>
      transport (composeRequest history newMessage attachments deepThink analyzeMode optimizeMode)

/-! ## `src/services/storage.ts` — the session store -/

/-- The inline title computation of `dbService.createSession`
(`src/services/storage.ts` lines 80 and 85, identical in
`src/server.js` lines 81 and 86): `slice(0, 30)` plus a conditional
ellipsis, with `title || "New Chat"` as the empty-content fallback. -/
def sessionTitle (content : String) : String :=
  let title := jsSlice content 30 ++ (if content.length > 30 then "..." else "")
  if title = "" then "New Chat" else title

/-- `dbService.createSession`: build the new session (title derived from the
first message) and push it onto the stored collection.  The generated id and
`Date.now()` are parameters.  Returns the new session and the new store. -/
def createSession (store : List ChatSession) (userId : String)
    (firstMessage : Message) (newId : String) (now : Nat) :
    ChatSession × List ChatSession :=
  let newSession : ChatSession :=
    { id := newId
      userId := userId
      title := sessionTitle firstMessage.content
      messages := [firstMessage]
      lastUpdated := now }
  (newSession, store ++ [newSession])

/-- `dbService.updateSession`: find the session by id (`findIndex`); when
found, overwrite its `messages` and refresh `lastUpdated`; when absent, do
nothing — the function returns normally in both cases and never signals an
error to the caller. -/
def updateSession (store : List ChatSession) (sessionId : String)
    (newMessages : List Message) (now : Nat) : List ChatSession :=
  match store with
  | [] => []
  | s :: rest =>
      if s.id = sessionId then
        { s with messages := newMessages, lastUpdated := now } :: rest
      else
        s :: updateSession rest sessionId newMessages now

/-- Stable insertion (descending by `lastUpdated`) used to model the
`sort((a, b) => b.lastUpdated - a.lastUpdated)` of `dbService.getSessions`. -/
def insertByLastUpdated (s : ChatSession) : List ChatSession → List ChatSession
  | [] => [s]
  | t :: ts =>
      if s.lastUpdated ≤ t.lastUpdated then t :: insertByLastUpdated s ts
      else s :: t :: ts

/-- `dbService.getSessions`: all stored sessions sorted by `lastUpdated`
descending. -/
def getSessions (store : List ChatSession) : List ChatSession :=
  store.foldr insertByLastUpdated []

/-! ## `src/App.tsx` — the conversation engine

The relevant React state of the `App` component.  `currentUser` is always the
static guest user (`authService.getCurrentUser` returns it unconditionally and
the engine UI only renders once it is set), so it is not carried in the state.
Presentation-only state (sidebar, settings modal, scroll refs) is omitted. -/
structure AppState where
  sessions : List ChatSession
  currentSessionId : Option String
  messages : List Message
  input : String
  isLoading : Bool
  deepThink : Bool
  analyzeMode : Bool
  optimizeMode : Bool
  attachments : List Attachment
  editingMessageId : Option String
  editContent : String
deriving DecidableEq, Repr

/-- The component state together with the stored session collection
(the `localStorage`-backed store behind `dbService`). -/
structure World where
  app : AppState
  store : List ChatSession
deriving DecidableEq, Repr

/-- The argument tuple a transition passes to `sendMessageToGemini` when it
dispatches a completion request (`none` dispatched means the transition was
rejected before the call). -/
structure SendCall where
  history : List Message
  newMessage : String
  attachments : List Attachment
  deepThink : Bool
  analyzeMode : Bool
  optimizeMode : Bool
deriving DecidableEq, Repr

/-- `startNewChat` (`src/App.tsx` lines 76–80): clear the active message
sequence and detach from any session.  No session is created and the store is
untouched. -/
def startNewChat (w : World) : World :=
  { w with app := { w.app with messages := [], currentSessionId := none } }

/-- The synchronous phase of `handleSend` (`src/App.tsx` lines 217–261), up to
and including the dispatch of the completion call.  Parameters beyond the
event: `manualInput` (the optional string argument of `handleSend`), the
generated user-message id, the generated session id used if a session must be
created, and the current time.  Returns the new world and the dispatched call
(`none` when the send is rejected).

Faithful details: the guard rejects when the text is blank and no attachments
are staged, or when a request is already in flight (`isLoading`); the user
message is appended optimistically before the remote call; the input buffer is
cleared only when `manualInput` is falsy (absent or the empty string); the
history passed to the completion call is the pre-append message list with the
synthetic `welcome` message filtered out; session creation uses a temporary
message (id `temp`) carrying the sent text. -/
def handleSend (w : World) (manualInput : Option String)
    (msgId sessId : String) (now : Nat) : World × Option SendCall :=
  let textToSend := match manualInput with | some t => t | none => w.app.input
  if (isBlank textToSend && w.app.attachments.isEmpty) || w.app.isLoading then
    (w, none)
  else
    let userMessage : Message :=
      { id := msgId
        role := Role.user
        content := textToSend
        attachments := some w.app.attachments
        timestamp := now }
    let clearsInput : Bool := match manualInput with | none => true | some t => t = ""
    let app1 : AppState :=
      { w.app with
        messages := w.app.messages ++ [userMessage]
        input := if clearsInput then "" else w.app.input
        attachments := []
        isLoading := true }
    let (app2, store2) :=
      match app1.currentSessionId with
      | some _ => (app1, w.store)
      | none =>
          let tempMsg : Message :=
            { id := "temp", role := Role.user, content := textToSend, timestamp := now }
          let (newSession, storeNew) := createSession w.store "guest_dev" tempMsg sessId now
          ({ app1 with
              currentSessionId := some newSession.id
              sessions := getSessions storeNew }, storeNew)
    let history := w.app.messages.filter (fun m => m.id ≠ "welcome")
    (⟨app2, store2⟩,
      some
        { history := history
          newMessage := userMessage.content
          attachments := userMessage.attachments.getD []
          deepThink := app2.deepThink
          analyzeMode := app2.analyzeMode
          optimizeMode := app2.optimizeMode })

/-- The synchronous phase of `handleEditSave` (`src/App.tsx` lines 159–191),
up to and including the dispatch of the regeneration call.  Guards exactly as
in the source: no message being edited, blank edit text, or an id not found in
the sequence each reject with no state change.  Note the source checks neither
`isLoading` nor the role of the target message here.  On acceptance: truncate
to the edited index inclusive, replace that message's content (spread keeps
`id`, `attachments`, `timestamp`), leave edit mode, set `isLoading`, and
dispatch with the truncated history minus the edited message (filtered of the
`welcome` placeholder) as context and the edited content as the new turn. -/
def handleEditSave (app : AppState) : AppState × Option SendCall :=
  match app.editingMessageId with
  | none => (app, none)
  | some mid =>
      if isBlank app.editContent then (app, none)
      else
        match jsFindIndex (fun m => m.id = mid) app.messages with
        | none => (app, none)
        | some msgIndex =>
            match app.messages[msgIndex]? with
            | none => (app, none)
            | some originalMsg =>
                let updatedMsg := { originalMsg with content := app.editContent }
                let newHistory := (app.messages.take (msgIndex + 1)).set msgIndex updatedMsg
                let app1 : AppState :=
                  { app with
                    messages := newHistory
                    editingMessageId := none
                    isLoading := true }
                let apiHistory := newHistory.dropLast.filter (fun m => m.id ≠ "welcome")
                (app1,
                  some
                    { history := apiHistory
                      newMessage := updatedMsg.content
                      attachments := updatedMsg.attachments.getD []
                      deepThink := app.deepThink
                      analyzeMode := app.analyzeMode
                      optimizeMode := app.optimizeMode })

/-- The error content appended by the `catch` branch of `handleSend`
(`src/App.tsx` lines 271–279).  The handler ignores which failure occurred, so
the content is the same fixed string for every `CompletionError`. -/
def sendErrorContent (_e : CompletionError) : String :=
  "I encountered a system error. Please check your API key."

/-- The error content appended by the `catch` branch of `handleEditSave`
(`src/App.tsx` lines 201–209); likewise independent of the failure cause. -/
def editErrorContent (_e : CompletionError) : String :=
  "Error regenerating response after edit."

/-- The success reconciliation of `handleSend`/`handleEditSave`: append the
model response and leave `AwaitingResponse`. -/
def onSendSuccess (app : AppState) (responseText : String) (botId : String)
    (now : Nat) : AppState :=
  { app with
    messages := app.messages ++
      [{ id := botId, role := Role.model, content := responseText, timestamp := now }]
    isLoading := false }

/-- The failure reconciliation of `handleSend` (`catch` + `finally`): append a
synthetic model-role message carrying the fixed error content and leave
`AwaitingResponse`. -/
def onSendFailure (app : AppState) (e : CompletionError) (botId : String)
    (now : Nat) : AppState :=
  { app with
    messages := app.messages ++
      [{ id := botId, role := Role.model, content := sendErrorContent e, timestamp := now }]
    isLoading := false }

/-- The history a subsequent `handleSend` passes to the completion call from a
given state: the current messages with the `welcome` placeholder filtered out
(`src/App.tsx` line 252). -/
def promptHistory (app : AppState) : List Message :=
  app.messages.filter (fun m => m.id ≠ "welcome")

/-- The persistence effect of `src/App.tsx` lines 56–60: whenever a session is
active and the message list is non-empty, persist the full message list via
`dbService.updateSession`. -/
def persistEffect (w : World) (now : Nat) : World :=
  match w.app.currentSessionId with
  | none => w
  | some sid =>
      if w.app.messages.length > 0 then
        { w with store := updateSession w.store sid w.app.messages now }
      else w

/-! ## Concrete sample states (used by witnesses and counterexamples) -/

/-- A sample first user message. -/
def msgU1 : Message :=
  { id := "u1", role := Role.user, content := "first question",
    attachments := some [], timestamp := 1 }

/-- A sample first model response. -/
def msgM1 : Message :=
  { id := "m1", role := Role.model, content := "first answer", timestamp := 2 }

/-- A sample second user message. -/
def msgU2 : Message :=
  { id := "u2", role := Role.user, content := "second question", timestamp := 3 }

/-- A sample second model response. -/
def msgM2 : Message :=
  { id := "m2", role := Role.model, content := "second answer", timestamp := 4 }

/-- A baseline idle app state holding the four sample messages. -/
def baseApp : AppState :=
  { sessions := [], currentSessionId := some "s1",
    messages := [msgU1, msgM1, msgU2, msgM2],
    input := "", isLoading := false,
    deepThink := false, analyzeMode := false, optimizeMode := false,
    attachments := [], editingMessageId := none, editContent := "" }

/-- Idle state in the middle of editing `u1` with new non-blank text. -/
def editApp : AppState :=
  { baseApp with editingMessageId := some "u1", editContent := "new text" }

/-- State already awaiting a response (`isLoading`) while an edit of `u1` is
open with non-blank text. -/
def loadingEditApp : AppState :=
  { baseApp with
    messages := [msgU1, msgM1]
    isLoading := true
    editingMessageId := some "u1"
    editContent := "changed" }

/-- Idle state in which the open edit targets the model-role message `m1`. -/
def modelEditApp : AppState :=
  { baseApp with
    messages := [msgU1, msgM1]
    editingMessageId := some "m1"
    editContent := "tampered" }

/-- Idle state in which the open edit has whitespace-only text. -/
def blankEditApp : AppState :=
  { baseApp with editingMessageId := some "u2", editContent := "   " }

/-- A stored session holding the sample conversation. -/
def sampleSession : ChatSession :=
  { id := "s1", userId := "guest_dev", title := "first question",
    messages := [msgU1, msgM1, msgU2, msgM2], lastUpdated := 5 }

/-- A second stored session with a different id. -/
def otherSession : ChatSession :=
  { id := "s2", userId := "guest_dev", title := "other",
    messages := [msgU2], lastUpdated := 3 }

/-- A world already awaiting a response. -/
def loadingWorld : World :=
  { app := { baseApp with isLoading := true, input := "more" },
    store := [sampleSession] }

/-- An idle world whose input buffer is whitespace-only with nothing staged. -/
def blankSendWorld : World :=
  { app := { baseApp with input := "   ", attachments := [] },
    store := [sampleSession] }

/-- A fresh conversation: no active session, empty message list, a typed
input. -/
def freshWorld : World :=
  { app := { baseApp with
             currentSessionId := none
             messages := []
             input := "build me a shop system" },
    store := [otherSession] }

/-! ## Helper lemmas -/

theorem jsFindIndex_lt_length {p : α → Bool} :
    ∀ {l : List α} {i : Nat}, jsFindIndex p l = some i → i < l.length := by
  intro l
  induction l with
  | nil => intro i h; simp [jsFindIndex] at h
  | cons a l ih =>
      intro i h
      by_cases hp : p a
      · simp [jsFindIndex, hp] at h
        simp [← h, List.length_cons]
      · simp [jsFindIndex, hp] at h
        rcases h with ⟨j, hj, rfl⟩
        have := ih hj
        simpa [List.length_cons] using Nat.succ_lt_succ this

theorem take_succ_set {l : List α} {i : Nat} (m : α) (h : i < l.length) :
    (l.take (i + 1)).set i m = l.take i ++ [m] := by
  induction l generalizing i with
  | nil => simp at h
  | cons a l ih =>
      cases i with
      | zero => simp
      | succ i =>
          have h' : i < l.length := by simpa using h
          simp [List.take_succ_cons, List.set_cons_succ, ih h']

theorem updateSession_found (sid : String) (msgs : List Message) (now : Nat) :
    ∀ {store : List ChatSession}, (∃ t ∈ store, t.id = sid) →
      ∃ t ∈ updateSession store sid msgs now,
        t.id = sid ∧ t.messages = msgs ∧ t.lastUpdated = now := by
  intro store
  induction store with
  | nil => rintro ⟨t, ht, -⟩; cases ht
  | cons s rest ih =>
      rintro ⟨t, ht, hts⟩
      by_cases hs : s.id = sid
      · exact ⟨{ s with messages := msgs, lastUpdated := now },
          by simp [updateSession, hs], hs, rfl, rfl⟩
      · rcases List.mem_cons.mp ht with rfl | htr
        · exact absurd hts hs
        · rcases ih ⟨t, htr, hts⟩ with ⟨u, hu, h1, h2, h3⟩
          exact ⟨u, by simp [updateSession, hs, hu], h1, h2, h3⟩

/-! ## Claims -/

/-- C4: for every mode set, the composed system instruction is the fixed base
persona instruction, then the analysis block when `analyzeMode` is set, then
the optimization block when `optimizeMode` is set, and — exactly when at least
one optional block was appended — a trailing directive naming exactly the
active modes and instructing the model to honor all of them jointly.  The
instruction is a pure function of the mode set, so identical mode sets yield
the identical string. -/
theorem systemInstruction_structure (a o : Bool) :
    systemInstructionOf a o =
      BASE_INSTRUCTION
        ++ (if a then "\n\n" ++ ANALYZE_INSTRUCTION else "")
        ++ (if o then "\n\n" ++ OPTIMIZE_INSTRUCTION else "")
        ++ (if a || o then modeDirective (activeModesOf a o) else "")
    ∧ activeModesOf a o
        = (if a then ["Analysis"] else []) ++ (if o then ["Optimization"] else []) := by
  cases a <;> cases o <;>
    refine ⟨?_, by rfl⟩ <;>
    simp [systemInstructionOf, activeModesOf, systemInstructionBuild]

/-- C5: the model name in every composed request is a pure function of
`deepThink` alone (`analyzeMode`/`optimizeMode` never affect it): `true`
selects the deep-reasoning variant `gemini-2.5-flash` and `false` the default
`gemini-3-pro-preview`; and the request carries the bounded reasoning budget
`8192` exactly when `deepThink` is true, the field being absent (`none`), not
zeroed, otherwise. -/
theorem model_selection_pure (history : List Message) (newMessage : String)
    (attachments : List Attachment) (deepThink a o a2 o2 : Bool) :
    (composeRequest history newMessage attachments deepThink a o).model
        = getModelName deepThink
    ∧ (composeRequest history newMessage attachments deepThink a o).model
        = (composeRequest history newMessage attachments deepThink a2 o2).model
    ∧ getModelName true = "gemini-2.5-flash"
    ∧ getModelName false = "gemini-3-pro-preview"
    ∧ (composeRequest history newMessage attachments deepThink a o).thinkingBudget
        = (if deepThink then some 8192 else none) :=
  ⟨rfl, rfl, rfl, rfl, rfl⟩

/-- C1: when an edit of the message at index `i` is accepted (a message is
being edited, the new text is not blank, and the id is found at index `i`),
the message sequence immediately after the synchronous phase — before any
regenerated response is appended — is exactly the first `i` original messages
followed by the original message at `i` with its `content` replaced by the
edit text (the record update keeps `id`, `attachments` and `timestamp`).  In
particular the new length is `i + 1`, the first `i` messages are unchanged,
and every message that was after index `i` is discarded. -/
theorem edit_truncates (app : AppState) (mid : String) (i : Nat) (orig : Message)
    (hmid : app.editingMessageId = some mid)
    (hblank : isBlank app.editContent = false)
    (hidx : jsFindIndex (fun m => m.id = mid) app.messages = some i)
    (horig : app.messages[i]? = some orig) :
    (handleEditSave app).1.messages
        = app.messages.take i ++ [{ orig with content := app.editContent }]
    ∧ (handleEditSave app).1.messages.length = i + 1
    ∧ (handleEditSave app).1.messages.take i = app.messages.take i
    ∧ (handleEditSave app).1.messages[i]?
        = some { orig with content := app.editContent } := by
  have hlt : i < app.messages.length := jsFindIndex_lt_length hidx
  have hmain : (handleEditSave app).1.messages
      = app.messages.take i ++ [{ orig with content := app.editContent }] := by
    simp only [handleEditSave, hmid, hblank, hidx, horig, Bool.false_eq_true, if_false]
    exact take_succ_set _ hlt
  have hlen : (app.messages.take i).length = i := by
    simp [List.length_take, Nat.min_eq_left (Nat.le_of_lt hlt)]
  refine ⟨hmain, ?_, ?_, ?_⟩
  · rw [hmain]
    simp [hlen]
  · rw [hmain]
    exact List.take_left' hlen
  · rw [hmain, ← hlen]
    simp [List.getElem?_concat_length]

/-- Witness for C1: editing the first user message of the four-message sample
conversation with the text `new text` truncates to a single message, the
original `u1` with updated content. -/
theorem edit_truncates_witness :
    editApp.editingMessageId = some "u1"
    ∧ isBlank editApp.editContent = false
    ∧ jsFindIndex (fun m => m.id = "u1") editApp.messages = some 0
    ∧ editApp.messages[0]? = some msgU1
    ∧ (handleEditSave editApp).1.messages
        = editApp.messages.take 0 ++ [{ msgU1 with content := editApp.editContent }]
    ∧ (handleEditSave editApp).1.messages.length = 0 + 1
    ∧ (handleEditSave editApp).1.messages.take 0 = editApp.messages.take 0
    ∧ (handleEditSave editApp).1.messages[0]?
        = some { msgU1 with content := editApp.editContent } := by
  have h := edit_truncates editApp "u1" 0 msgU1 (by rfl) (by decide) (by decide) (by rfl)
  exact ⟨by rfl, by decide, by decide, by rfl, h.1, h.2.1, h.2.2.1, h.2.2.2⟩

/-- C2 (amended): while a completion request is in flight (`isLoading`),
`handleSend` is rejected as a no-op — the state is unchanged and no completion
call is dispatched — so a second `send` issued before the first completes
dispatches nothing.  (The edit-save path is *not* guarded by the in-flight
flag; see the counterexample `edit_dispatches_while_loading`.) -/
theorem send_rejected_while_loading (w : World) (manualInput : Option String)
    (msgId sessId : String) (now : Nat)
    (h : w.app.isLoading = true) :
    handleSend w manualInput msgId sessId now = (w, none) := by
  simp [handleSend, h]

/-- Witness for C2 (amended): a concrete send issued while the sample world is
awaiting a response leaves the world unchanged and dispatches nothing. -/
theorem send_rejected_while_loading_witness :
    loadingWorld.app.isLoading = true
    ∧ handleSend loadingWorld none "id9" "sess9" 99 = (loadingWorld, none) :=
  ⟨rfl, send_rejected_while_loading loadingWorld none "id9" "sess9" 99 rfl⟩

/-- Counterexample for C2 as stated: in a state that is awaiting a response
(`isLoading = true`), saving an open edit is *not* rejected — `handleEditSave`
has no in-flight guard, so it changes the state and dispatches a second
completion call while the first is still in flight. -/
theorem edit_dispatches_while_loading :
    loadingEditApp.isLoading = true
    ∧ (handleEditSave loadingEditApp).2.isSome = true
    ∧ (handleEditSave loadingEditApp).1 ≠ loadingEditApp := by
  refine ⟨rfl, by decide, by decide⟩

/-- C6 (amended): saving an edit is rejected synchronously with no state
change whenever no message is being edited, the new text is empty or
whitespace-only, or the edited id does not identify a message currently in the
sequence.  The source does not check the target's role — see the
counterexample `edit_accepts_model_role`. -/
theorem edit_rejected_invalid (app : AppState)
    (h : app.editingMessageId = none
      ∨ isBlank app.editContent = true
      ∨ (∀ mid, app.editingMessageId = some mid →
          jsFindIndex (fun m => m.id = mid) app.messages = none)) :
    handleEditSave app = (app, none) := by
  cases hE : app.editingMessageId with
  | none => simp [handleEditSave, hE]
  | some mid =>
      rcases h with h | h | h
      · rw [hE] at h; cases h
      · simp [handleEditSave, hE, h]
      · have hnone := h mid hE
        by_cases hb : isBlank app.editContent <;>
          simp [handleEditSave, hE, hb, hnone]

/-- Witness for C6 (amended): saving an edit whose text is whitespace-only
leaves the concrete sample state unchanged and dispatches nothing. -/
theorem edit_rejected_invalid_witness :
    isBlank blankEditApp.editContent = true
    ∧ handleEditSave blankEditApp = (blankEditApp, none) :=
  ⟨by decide, edit_rejected_invalid blankEditApp (Or.inr (Or.inl (by decide)))⟩

/-- Counterexample for C6 as stated: the sequence `[u1, m1]` contains the
model-role message `m1`, yet saving an edit that targets `m1` is *not*
rejected — the state changes and a regeneration call is dispatched, because
`handleEditSave` checks only existence of the id, never the role. -/
theorem edit_accepts_model_role :
    (∃ m ∈ modelEditApp.messages, m.id = "m1" ∧ m.role = Role.model)
    ∧ handleEditSave modelEditApp ≠ (modelEditApp, none)
    ∧ (handleEditSave modelEditApp).2.isSome = true := by
  refine ⟨⟨msgM1, by decide, by decide, by decide⟩, by decide, by decide⟩

/-- C7: a send whose text is empty or whitespace-only with no staged
attachments is a no-op — the whole world (message sequence, session state,
store) is unchanged and no completion call is dispatched. -/
theorem send_noop_on_blank (w : World) (manualInput : Option String)
    (msgId sessId : String) (now : Nat)
    (hblank : isBlank (match manualInput with | some t => t | none => w.app.input) = true)
    (hatt : w.app.attachments = []) :
    handleSend w manualInput msgId sessId now = (w, none) := by
  simp [handleSend, hblank, hatt]

/-- Witness for C7: sending from the concrete world whose input buffer is
whitespace-only with nothing staged changes nothing and dispatches nothing. -/
theorem send_noop_on_blank_witness :
    isBlank (match (none : Option String) with
              | some t => t
              | none => blankSendWorld.app.input) = true
    ∧ blankSendWorld.app.attachments = []
    ∧ handleSend blankSendWorld none "id7" "sess7" 77 = (blankSendWorld, none) :=
  ⟨by decide, rfl, send_noop_on_blank blankSendWorld none "id7" "sess7" 77 (by decide) rfl⟩

/-- Counterexample for C3 as stated: the user-facing error wording is *not*
distinct for a missing-credential failure — the `catch` handler of
`handleSend` (and likewise of `handleEditSave`) ignores the failure cause and
uses one fixed string for every `CompletionError`. -/
theorem error_wording_not_distinct :
    sendErrorContent CompletionError.missingCredential
        = sendErrorContent CompletionError.transportError
    ∧ sendErrorContent CompletionError.missingCredential
        = sendErrorContent CompletionError.remoteError
    ∧ editErrorContent CompletionError.missingCredential
        = editErrorContent CompletionError.transportError :=
  ⟨rfl, rfl, rfl⟩

/-- C3 (amended): whenever the in-flight completion call fails, the engine
appends a synthetic model-role message carrying a user-facing error
description to the tail of the message sequence; the message is persisted
exactly like a normal response (the persistence effect overwrites the stored
session's messages with the full new sequence) and is included in subsequent
prompt history; but the wording is one fixed string for every failure cause —
a missing credential is worded identically to transport/remote failures. -/
theorem failure_appends_persisted_error (app : AppState) (e e2 : CompletionError)
    (botId : String) (now : Nat) (sid : String) (store : List ChatSession) (now2 : Nat)
    (hid : botId ≠ "welcome")
    (hsid : app.currentSessionId = some sid)
    (hstore : ∃ t ∈ store, t.id = sid) :
    (onSendFailure app e botId now).messages
        = app.messages ++
          [{ id := botId, role := Role.model, content := sendErrorContent e, timestamp := now }]
    ∧ sendErrorContent e = sendErrorContent e2
    ∧ promptHistory (onSendFailure app e botId now)
        = promptHistory app ++
          [{ id := botId, role := Role.model, content := sendErrorContent e, timestamp := now }]
    ∧ ∃ t ∈ (persistEffect ⟨onSendFailure app e botId now, store⟩ now2).store,
        t.id = sid ∧ t.messages = (onSendFailure app e botId now).messages := by
  refine ⟨rfl, rfl, ?_, ?_⟩
  · simp [promptHistory, onSendFailure, List.filter_append, hid]
  · have hcur : (onSendFailure app e botId now).currentSessionId = some sid := hsid
    have hpos : (onSendFailure app e botId now).messages.length > 0 := by
      simp [onSendFailure]
    simp only [persistEffect, hcur, hpos, if_pos]
    obtain ⟨t, ht, h1, h2, -⟩ :=
      updateSession_found sid (onSendFailure app e botId now).messages now2 hstore
    exact ⟨t, ht, h1, h2⟩

/-- Witness for C3 (amended): a concrete missing-credential failure in the
sample conversation appends the fixed error message, keeps it in the next
prompt history, and persists it into the stored session `s1`. -/
theorem failure_appends_persisted_error_witness :
    ("err1" : String) ≠ "welcome"
    ∧ baseApp.currentSessionId = some "s1"
    ∧ (∃ t ∈ [sampleSession], t.id = "s1")
    ∧ (onSendFailure baseApp CompletionError.missingCredential "err1" 10).messages
        = baseApp.messages ++
          [{ id := "err1", role := Role.model,
             content := sendErrorContent CompletionError.missingCredential, timestamp := 10 }]
    ∧ sendErrorContent CompletionError.missingCredential
        = sendErrorContent CompletionError.transportError
    ∧ promptHistory (onSendFailure baseApp CompletionError.missingCredential "err1" 10)
        = promptHistory baseApp ++
          [{ id := "err1", role := Role.model,
             content := sendErrorContent CompletionError.missingCredential, timestamp := 10 }]
    ∧ ∃ t ∈ (persistEffect
          ⟨onSendFailure baseApp CompletionError.missingCredential "err1" 10,
           [sampleSession]⟩ 11).store,
        t.id = "s1"
        ∧ t.messages = (onSendFailure baseApp CompletionError.missingCredential "err1" 10).messages := by
  have h := failure_appends_persisted_error baseApp CompletionError.missingCredential
    CompletionError.transportError "err1" 10 "s1" [sampleSession] 11
    (by decide) (by rfl) (by decide)
  exact ⟨by decide, by rfl, by decide, h.1, h.2.1, h.2.2.1, h.2.2.2⟩

/-- C8: starting a new chat creates no session (the store is untouched and the
conversation becomes session-less with an empty sequence); the session is
created lazily by the first accepted send of a fresh conversation — the store
gains exactly one session whose id is the freshly generated one, whose single
message is the `temp` message carrying the sent text, and whose title is
derived from that just-appended user message's content; the appended tail
message of the new app state is the user message with that same content, and
the completion call is dispatched. -/
theorem lazy_session_creation (w : World) (manualInput : Option String)
    (msgId sessId : String) (now : Nat)
    (hload : w.app.isLoading = false)
    (hsid : w.app.currentSessionId = none)
    (htext : isBlank (match manualInput with | some t => t | none => w.app.input) = false) :
    (startNewChat w).store = w.store
    ∧ (startNewChat w).app.currentSessionId = none
    ∧ (startNewChat w).app.messages = []
    ∧ (handleSend w manualInput msgId sessId now).1.store
        = w.store ++
          [{ id := sessId, userId := "guest_dev",
             title := sessionTitle (match manualInput with | some t => t | none => w.app.input),
             messages := [{ id := "temp", role := Role.user,
                            content := (match manualInput with | some t => t | none => w.app.input),
                            timestamp := now }],
             lastUpdated := now }]
    ∧ (handleSend w manualInput msgId sessId now).1.app.currentSessionId = some sessId
    ∧ (handleSend w manualInput msgId sessId now).1.app.messages.getLast?
        = some { id := msgId, role := Role.user,
                 content := (match manualInput with | some t => t | none => w.app.input),
                 attachments := some w.app.attachments, timestamp := now }
    ∧ (handleSend w manualInput msgId sessId now).2.isSome = true := by
  cases manualInput with
  | none =>
      refine ⟨rfl, rfl, rfl, ?_, ?_, ?_, ?_⟩ <;>
        simp_all [handleSend, createSession, List.getLast?_concat]
  | some t =>
      refine ⟨rfl, rfl, rfl, ?_, ?_, ?_, ?_⟩ <;>
        simp_all [handleSend, createSession, List.getLast?_concat]

/-- Witness for C8: the first send of the concrete fresh conversation creates
exactly one new stored session titled from the sent text, activates it, and
dispatches the completion call. -/
theorem lazy_session_creation_witness :
    freshWorld.app.isLoading = false
    ∧ freshWorld.app.currentSessionId = none
    ∧ isBlank freshWorld.app.input = false
    ∧ (startNewChat freshWorld).store = freshWorld.store
    ∧ (handleSend freshWorld none "mid1" "sess1" 42).1.store
        = freshWorld.store ++
          [{ id := "sess1", userId := "guest_dev",
             title := sessionTitle freshWorld.app.input,
             messages := [{ id := "temp", role := Role.user,
                            content := freshWorld.app.input, timestamp := 42 }],
             lastUpdated := 42 }]
    ∧ (handleSend freshWorld none "mid1" "sess1" 42).1.app.currentSessionId = some "sess1"
    ∧ (handleSend freshWorld none "mid1" "sess1" 42).2.isSome = true := by
  have h := lazy_session_creation freshWorld none "mid1" "sess1" 42 rfl rfl (by decide)
  exact ⟨rfl, rfl, by decide, h.1, h.2.2.2.1, h.2.2.2.2.1, h.2.2.2.2.2.2⟩

/-- C9: the session title derivation applied to the first user message's
content returns the content itself when it is non-empty and at most 30
characters (no ellipsis marker), returns the first 30 characters with the
ellipsis marker `...` appended exactly when the content is longer than 30
characters, and returns the fixed default `New Chat` when the content is
empty. -/
theorem sessionTitle_spec (content : String) :
    sessionTitle "" = "New Chat"
    ∧ (content ≠ "" → content.length ≤ 30 → sessionTitle content = content)
    ∧ (content.length > 30 →
        sessionTitle content = jsSlice content 30 ++ "..."
        ∧ (jsSlice content 30).length = 30) := by
  refine ⟨by rfl, ?_, ?_⟩
  · intro hne hle
    have h30 : ¬ content.length > 30 := by omega
    have hslice : jsSlice content 30 = content := by
      show String.mk (content.data.take 30) = content
      rw [List.take_of_length_le hle]
    simp [sessionTitle, h30, hslice, hne]
  · intro hgt
    have hlen3 : ("..." : String).length = 3 := rfl
    have hlen0 : ("" : String).length = 0 := rfl
    have hne3 : jsSlice content 30 ++ "..." ≠ "" := by
      intro hcontra
      have hL := congrArg String.length hcontra
      rw [String.length_append, hlen3, hlen0] at hL
      omega
    have hgt' : 30 < content.data.length := hgt
    constructor
    · simp [sessionTitle, hgt, hne3]
    · show (String.mk (content.data.take 30)).length = 30
      show (content.data.take 30).length = 30
      rw [List.length_take]
      omega

/-- Witness for C9: a short non-empty content is returned unchanged, and a
40-character content is truncated to its first 30 characters with the
ellipsis marker appended. -/
theorem sessionTitle_spec_witness :
    (("hello" : String) ≠ ""
      ∧ ("hello" : String).length ≤ 30
      ∧ sessionTitle "hello" = "hello")
    ∧ (("build me a shop system with daily rewards" : String).length > 30
      ∧ sessionTitle "build me a shop system with daily rewards"
          = jsSlice "build me a shop system with daily rewards" 30 ++ "..."
      ∧ (jsSlice "build me a shop system with daily rewards" 30).length = 30) := by
  have h1 := (sessionTitle_spec "hello").2.1 (by decide) (by decide)
  have h2 := (sessionTitle_spec "build me a shop system with daily rewards").2.2 (by decide)
  exact ⟨⟨by decide, by decide, h1⟩, ⟨by decide, h2.1, h2.2⟩⟩

/-- C10: `updateSession` leaves every stored session at a position holding an
id different from the target unchanged (same position, same value); when no
stored session has the target id, the entire stored collection is returned
unchanged — and the function is total, returning normally (no error value)
in that case. -/
theorem updateSession_preserves_others (store : List ChatSession) (sid : String)
    (msgs : List Message) (now : Nat) :
    (updateSession store sid msgs now).length = store.length
    ∧ (∀ (i : Nat) (t : ChatSession), store[i]? = some t → t.id ≠ sid →
        (updateSession store sid msgs now)[i]? = some t)
    ∧ ((∀ t ∈ store, t.id ≠ sid) → updateSession store sid msgs now = store) := by
  induction store with
  | nil =>
      refine ⟨rfl, ?_, fun _ => rfl⟩
      intro i t h
      simp at h
  | cons s rest ih =>
      obtain ⟨ih1, ih2, ih3⟩ := ih
      by_cases hs : s.id = sid
      · refine ⟨by simp [updateSession, hs], ?_, ?_⟩
        · intro i t ht hne
          cases i with
          | zero =>
              simp at ht
              rw [← ht] at hne
              exact absurd hs hne
          | succ i => simpa [updateSession, hs] using ht
        · intro hall
          exact absurd hs (hall s (List.mem_cons_self s rest))
      · refine ⟨by simp [updateSession, hs, ih1], ?_, ?_⟩
        · intro i t ht hne
          cases i with
          | zero => simpa [updateSession, hs] using ht
          | succ i =>
              simp only [List.getElem?_cons_succ] at ht
              simpa [updateSession, hs] using ih2 i t ht hne
        · intro hall
          have : updateSession rest sid msgs now = rest :=
            ih3 (fun t ht => hall t (List.mem_cons_of_mem s ht))
          simp [updateSession, hs, this]

/-- Witness for C10: updating session `s1` in the concrete two-session store
leaves the other session `s2` in place unchanged, and updating with an id
present nowhere returns the store unchanged. -/
theorem updateSession_preserves_others_witness :
    ((updateSession [sampleSession, otherSession] "s1" [msgU2] 9)[1]? = some otherSession)
    ∧ updateSession [sampleSession, otherSession] "missing" [msgU2] 9
        = [sampleSession, otherSession] :=
  ⟨(updateSession_preserves_others [sampleSession, otherSession] "s1" [msgU2] 9).2.1
      1 otherSession (by decide) (by decide),
   (updateSession_preserves_others [sampleSession, otherSession] "missing" [msgU2] 9).2.2
      (by decide)⟩

end ArchitectAI
